import Mathlib

/-!
Verification of the image-metadata routes of img-obj-detector-nodejs.

The repository source under scrutiny is src/src/routes/image-metadata.routes.ts,
an Express router with three handlers:
  GET  /images       : list all image records, optionally filtered by detected objects
  GET  /images/:id   : fetch one record by identifier
  POST /images       : the ingestion pipeline (authenticate, validate, classify,
                       resolve local uploads, delegate creation, map failures)

Collaborators imported by the routes file (the validators, the service module,
the mongoose model and the constants modules) are not present under src/; they
are modelled from the spec where they decide behaviour, and kept abstract
(quantified function parameters of an environment record) where the claims
quantify over their behaviour anyway.
-/

/- Modelled from the spec: src/constants/http-status.constants.ts is absent from
src; section 6 of the spec fixes the status codes used by the routes. -/
namespace HTTP_STATUS

def OKAY : Nat := 200

def BAD_REQUEST : Nat := 400

def UNAUTHORIZED : Nat := 401

def INTERNAL_SERVER_ERROR : Nat := 500

end HTTP_STATUS

/-- Modelled from the spec: src/constants/messages.constants.ts is absent from
src. The spec fixes this body text in section 6. -/
def IMAGE_FILE_TYPE_UNSUPPORTED : String := "unsupported image file type"

/-- Modelled from the spec: src/constants/messages.constants.ts is absent from
src. The spec fixes this body text in section 6. -/
def IMAGE_FILE_NOT_FOUND : String := "image file not found"

/-- Modelled from the spec: src/constants/messages.constants.ts is absent from
src. The spec fixes this body text in section 6. -/
def IMAGE_NOT_FOUND : String := "image not found"

/-- Modelled from the spec: src/constants/messages.constants.ts is absent from
src. The spec fixes this body text in section 6. -/
def IMAGE_PROCESSING_FAILED : String := "image processing failed"

/-- Modelled from the spec: src/constants/messages.constants.ts is absent from
src. The spec says only that the missing-auth message is a fixed string; its
exact wording is not determined, so an arbitrary fixed string stands for it. -/
def MISSING_AUTH : String := "missing authorization header"

/-- A persisted image-metadata record (spec section 3, ImageRecord): an opaque
identifier, the resolved image location, the detected-object labels, the
local-upload flag, and opaque caller-supplied descriptive fields. JavaScript
fields may be absent, hence the Option on imgUrl. -/
structure ImageRecord where
  id : String
  imgUrl : Option String
  objects : List String
  isUploadedFile : Bool
  rest : List (String × String)
deriving DecidableEq, Repr

/-- The JSON body of a POST /images request: an imgUrl reference string (absent
when the caller omitted it) plus arbitrary further fields, passed through
opaquely. -/
structure RequestBody where
  imgUrl : Option String
  rest : List (String × String)
deriving DecidableEq, Repr

/-- A thrown JavaScript error, observed by the catch block only through its
message string (the routes file reads (error as Error).message). -/
structure JsError where
  message : String
deriving DecidableEq, Repr

/-- A response body as produced by res.send in the routes file: a plain string,
an object with a single message field, one record (spread), or a list of
records. -/
inductive Body where
  | str (s : String)
  | msgObj (message : String)
  | record (r : ImageRecord)
  | records (rs : List ImageRecord)
deriving DecidableEq, Repr

/-- An HTTP response: the status set by res.status and the body sent. -/
structure HResponse where
  status : Nat
  body : Body
deriving DecidableEq, Repr

/-- One call made to the external detection/storage service during a POST
/images request, recorded so that theorems can count invocations. -/
inductive ServiceCall where
  | handleLocalFileCall (imgUrl : Option String) (auth : String)
  | createImageCall (body : RequestBody) ( isUploadedFile : Bool) (auth : String)
deriving DecidableEq, Repr

/-- The collaborators the POST handler uses, absent from src and therefore kept
abstract: the pure validators isValidImage (src/lib/valid-image) and
isLocalFile (src/lib/check-filepath), and the two ImageService operations
(src/services/image.service), whose failures are JavaScript exceptions. -/
structure Env where
  isValidImage : Option String → Bool
  isLocalFile : Option String → Bool
  handleLocalFile : Option String → String → Except JsError String
  createImage : RequestBody → Bool → String → Except JsError ImageRecord

/-- A POST /images request: the optional authorization header and the parsed
JSON body. -/
structure PostRequest where
  authorization : Option String
  body : RequestBody

/-- The catch block of the POST handler (routes file lines 97 to 105): an error
whose message equals IMAGE_FILE_NOT_FOUND yields 400 with that string as body;
every other error yields 500 with IMAGE_PROCESSING_FAILED. The comparison is on
the message alone, not on which awaited call threw. -/
def catchBlock (e : JsError) : HResponse :=
  if e.message = IMAGE_FILE_NOT_FOUND then
    { status := HTTP_STATUS.BAD_REQUEST, body := Body.str IMAGE_FILE_NOT_FOUND }
  else
    { status := HTTP_STATUS.INTERNAL_SERVER_ERROR,
      body := Body.str IMAGE_PROCESSING_FAILED }

/-- The POST /images handler (routes file lines 63 to 107), transcribed
branch by branch. A falsy authorization header (undefined or the empty string)
is rejected with 401 before anything else; an imgUrl failing isValidImage is
rejected with 400; a local reference is resolved through
ImageService.handleLocalFile with the authorization forwarded, the body is
rebuilt with the resolved url, and ImageService.createImage is called with the
updated body, the local flag and the authorization; thrown errors go to
catchBlock. The second component lists the service calls made, in order. -/
def postImages (env : Env) (req : PostRequest) : HResponse × List ServiceCall :=
  match req.authorization with
  | none =>
    ({ status := HTTP_STATUS.UNAUTHORIZED, body := Body.str MISSING_AUTH }, [])
  | some auth =>
    if auth = "" then
      ({ status := HTTP_STATUS.UNAUTHORIZED, body := Body.str MISSING_AUTH }, [])
    else
      let imgUrl := req.body.imgUrl
      if env.isValidImage imgUrl = false then
        ({ status := HTTP_STATUS.BAD_REQUEST,
           body := Body.msgObj IMAGE_FILE_TYPE_UNSUPPORTED }, [])
      else
        if env.isLocalFile imgUrl then
          match env.handleLocalFile imgUrl auth with
          | Except.error e =>
            (catchBlock e, [ServiceCall.handleLocalFileCall imgUrl auth])
          | Except.ok resolved =>
            let updatedBody : RequestBody := { req.body with imgUrl := some resolved }
            match env.createImage updatedBody true auth with
            | Except.error e =>
              (catchBlock e,
               [ServiceCall.handleLocalFileCall imgUrl auth,
                ServiceCall.createImageCall updatedBody true auth])
            | Except.ok result =>
              ({ status := HTTP_STATUS.OKAY, body := Body.record result },
               [ServiceCall.handleLocalFileCall imgUrl auth,
                ServiceCall.createImageCall updatedBody true auth])
        else
          match env.createImage req.body false auth with
          | Except.error e =>
            (catchBlock e, [ServiceCall.createImageCall req.body false auth])
          | Except.ok result =>
            ({ status := HTTP_STATUS.OKAY, body := Body.record result },
             [ServiceCall.createImageCall req.body false auth])

namespace ImageMetadata

/-- Modelled from the spec: the document store (mongose model ImageMetadata) is
external; find with an objects $in filter returns the records whose objects
set intersects the given label list (spec section 4.5). -/
def findByObjectsIn (db : List ImageRecord) (objectsArr : List String) :
    List ImageRecord :=
  db.filter (fun r => r.objects.any (fun o => objectsArr.contains o))

/-- Modelled from the spec: find with an empty filter returns every stored
record (spec section 4.5, list with no objects parameter). -/
def findAll (db : List ImageRecord) : List ImageRecord := db

/-- Modelled from the spec: findById returns the stored record with the given
identifier, or nothing when absent (spec section 4.5, fetch by identifier). -/
def findById (db : List ImageRecord) (id : String) : Option ImageRecord :=
  db.find? (fun r => r.id = id)

end ImageMetadata

/-- Auxiliary for jsSplit: split a character list on a separator character,
never returning the empty list. -/
def splitListOn (sep : Char) : List Char → List (List Char)
  | [] => [[]]
  | c :: cs =>
    match splitListOn sep cs with
    | [] => [[]]
    | s :: ss => if c = sep then [] :: s :: ss else (c :: s) :: ss

/-- The JavaScript String.prototype.split with a one-character separator, as
used by the GET handler on the objects parameter: the empty string splits to a
single empty piece, and adjacent separators produce empty pieces. -/
def jsSplit (s : String) (sep : Char) : List String :=
  (splitListOn sep s.data).map String.mk

/-- The value of req.query.objects as Express may deliver it: absent, a single
string, or an array (the parameter supplied multiple times). -/
inductive QueryValue where
  | absent
  | str (s : String)
  | arr (ss : List String)
deriving DecidableEq, Repr

/-- The GET /images handler (routes file lines 23 to 39): the filter branch is
taken only when req.query.objects is truthy (a nonempty string) and of string
type; it splits the string on commas and queries with an $in filter; every
other shape of the parameter falls through to find all. -/
def getImages (db : List ImageRecord) (objects : QueryValue) : HResponse :=
  match objects with
  | QueryValue.str s =>
    if s = "" then
      { status := HTTP_STATUS.OKAY, body := Body.records (ImageMetadata.findAll db) }
    else
      { status := HTTP_STATUS.OKAY,
        body := Body.records (ImageMetadata.findByObjectsIn db (jsSplit s ',')) }
  | _ =>
    { status := HTTP_STATUS.OKAY, body := Body.records (ImageMetadata.findAll db) }

/-- The GET /images/:id handler (routes file lines 44 to 57): findById, then
400 with a message object when nothing is found, else 200 with the record.
The identifier is pre-validated by middleware outside src. -/
def getImageById (db : List ImageRecord) (id : String) : HResponse :=
  match ImageMetadata.findById db id with
  | none =>
    { status := HTTP_STATUS.BAD_REQUEST, body := Body.msgObj IMAGE_NOT_FOUND }
  | some image =>
    { status := HTTP_STATUS.OKAY, body := Body.record image }

/-! Concrete fixtures used by witnesses and counterexamples. -/

def sampleBody : RequestBody :=
  { imgUrl := some "https://example.com/a.png", rest := [("title", "cat pic")] }

def sampleReq : PostRequest := { authorization := some "token", body := sampleBody }

def sampleRecord : ImageRecord :=
  { id := "1", imgUrl := some "https://example.com/a.png", objects := ["cat"],
    isUploadedFile := false, rest := [] }

def envRemote : Env :=
  { isValidImage := fun _ => true, isLocalFile := fun _ => false,
    handleLocalFile := fun _ _ => Except.ok "https://durable/a.png",
    createImage := fun _ _ _ => Except.ok sampleRecord }

def envInvalid : Env := { envRemote with isValidImage := fun _ => false }

def envLocal : Env := { envRemote with isLocalFile := fun _ => true }

def envLocalNotFound : Env :=
  { envLocal with handleLocalFile := fun _ _ => Except.error { message := IMAGE_FILE_NOT_FOUND } }

def envCreateBoom : Env :=
  { envRemote with createImage := fun _ _ _ => Except.error { message := "boom" } }

def envCreateNotFound : Env :=
  { envRemote with createImage := fun _ _ _ => Except.error { message := IMAGE_FILE_NOT_FOUND } }

/-- Claim C1: a POST /images request with no authorization header gets status
401 with the fixed missing-auth message, for every body and every behaviour of
the validators and the service, and no service call is made. -/
theorem c1_missing_auth_terminal (env : Env) (req : PostRequest)
    (h : req.authorization = none) :
    postImages env req =
      ({ status := HTTP_STATUS.UNAUTHORIZED, body := Body.str MISSING_AUTH }, []) := by
  simp [postImages, h]

/-- Witness for C1 at a concrete request with an invalid image url and no
authorization header. -/
theorem c1_missing_auth_terminal_witness :
    postImages envInvalid { authorization := none, body := sampleBody } =
      ({ status := HTTP_STATUS.UNAUTHORIZED, body := Body.str MISSING_AUTH }, []) :=
  c1_missing_auth_terminal envInvalid { authorization := none, body := sampleBody } rfl

/-- Claim C10: a POST /images request whose authorization header is the empty
string is treated like an absent header: 401 with the missing-auth message and
no service call, for every body and every environment. -/
theorem c10_empty_auth_terminal (env : Env) (req : PostRequest)
    (h : req.authorization = some "") :
    postImages env req =
      ({ status := HTTP_STATUS.UNAUTHORIZED, body := Body.str MISSING_AUTH }, []) := by
  simp [postImages, h]

/-- Witness for C10 at a concrete request carrying an empty authorization
header. -/
theorem c10_empty_auth_terminal_witness :
    postImages envRemote { authorization := some "", body := sampleBody } =
      ({ status := HTTP_STATUS.UNAUTHORIZED, body := Body.str MISSING_AUTH }, []) :=
  c10_empty_auth_terminal envRemote { authorization := some "", body := sampleBody } rfl

/-- Claim C2: an authenticated POST /images request whose imgUrl fails
isValidImage gets status 400 with the unsupported-file-type message object, and
neither handleLocalFile nor createImage is invoked: the call trace is empty. -/
theorem c2_invalid_type_short_circuits (env : Env) (req : PostRequest) (a : String)
    (hauth : req.authorization = some a) (hne : a ≠ "")
    (hval : env.isValidImage req.body.imgUrl = false) :
    postImages env req =
      ({ status := HTTP_STATUS.BAD_REQUEST,
         body := Body.msgObj IMAGE_FILE_TYPE_UNSUPPORTED }, []) := by
  simp [postImages, hauth, hne, hval]

/-- Witness for C2 at a concrete authenticated request whose url the validator
rejects. -/
theorem c2_invalid_type_short_circuits_witness :
    postImages envInvalid sampleReq =
      ({ status := HTTP_STATUS.BAD_REQUEST,
         body := Body.msgObj IMAGE_FILE_TYPE_UNSUPPORTED }, []) :=
  c2_invalid_type_short_circuits envInvalid sampleReq "token" rfl (by decide) rfl

/-- Claim C3: an authenticated POST /images request with a valid reference
classified as remote calls createImage exactly once, with the body unchanged
(imgUrl as supplied) and the uploaded-file flag false, never calls the
resolver, and on createImage success responds 200 with the created record. -/
theorem c3_remote_passthrough (env : Env) (req : PostRequest) (a : String)
    (hauth : req.authorization = some a) (hne : a ≠ "")
    (hval : env.isValidImage req.body.imgUrl = true)
    (hloc : env.isLocalFile req.body.imgUrl = false) :
    (postImages env req).2 = [ServiceCall.createImageCall req.body false a] ∧
    ∀ r, env.createImage req.body false a = Except.ok r →
      postImages env req =
        ({ status := HTTP_STATUS.OKAY, body := Body.record r },
         [ServiceCall.createImageCall req.body false a]) := by
  constructor
  · cases hc : env.createImage req.body false a <;>
      simp [postImages, hauth, hne, hval, hloc, hc]
  · intro r hr
    simp [postImages, hauth, hne, hval, hloc, hr]

/-- Witness for C3 at a concrete authenticated request with a remote url and a
succeeding delegate. -/
theorem c3_remote_passthrough_witness :
    postImages envRemote sampleReq =
      ({ status := HTTP_STATUS.OKAY, body := Body.record sampleRecord },
       [ServiceCall.createImageCall sampleBody false "token"]) :=
  (c3_remote_passthrough envRemote sampleReq "token" rfl (by decide) rfl rfl).2
    sampleRecord rfl

/-- Claim C4: an authenticated POST /images request with a valid reference
classified as local calls handleLocalFile exactly once with the caller token,
and when the resolver returns a durable url the body handed to createImage
carries that url (not the original reference) with the uploaded-file flag
true. -/
theorem c4_local_resolution (env : Env) (req : PostRequest) (a u : String)
    (hauth : req.authorization = some a) (hne : a ≠ "")
    (hval : env.isValidImage req.body.imgUrl = true)
    (hloc : env.isLocalFile req.body.imgUrl = true)
    (hres : env.handleLocalFile req.body.imgUrl a = Except.ok u) :
    (postImages env req).2 =
      [ServiceCall.handleLocalFileCall req.body.imgUrl a,
       ServiceCall.createImageCall { req.body with imgUrl := some u } true a] := by
  cases hc : env.createImage { req.body with imgUrl := some u } true a <;>
    simp [postImages, hauth, hne, hval, hloc, hres, hc]

/-- Witness for C4 at a concrete authenticated request with a local reference
and a succeeding resolver. -/
theorem c4_local_resolution_witness :
    (postImages envLocal sampleReq).2 =
      [ServiceCall.handleLocalFileCall (some "https://example.com/a.png") "token",
       ServiceCall.createImageCall
         { imgUrl := some "https://durable/a.png", rest := [("title", "cat pic")] }
         true "token"] :=
  c4_local_resolution envLocal sampleReq "token" "https://durable/a.png"
    rfl (by decide) rfl rfl rfl

/-- Claim C5: when the resolver of a valid local reference fails with the
distinguished file-not-found error, the response is 400 with the plain string
body image file not found, and createImage is never invoked: the call trace
holds only the resolver call. -/
theorem c5_local_not_found (env : Env) (req : PostRequest) (a : String)
    (hauth : req.authorization = some a) (hne : a ≠ "")
    (hval : env.isValidImage req.body.imgUrl = true)
    (hloc : env.isLocalFile req.body.imgUrl = true)
    (hres : env.handleLocalFile req.body.imgUrl a =
      Except.error { message := IMAGE_FILE_NOT_FOUND }) :
    postImages env req =
      ({ status := HTTP_STATUS.BAD_REQUEST, body := Body.str IMAGE_FILE_NOT_FOUND },
       [ServiceCall.handleLocalFileCall req.body.imgUrl a]) := by
  simp [postImages, catchBlock, hauth, hne, hval, hloc, hres]

/-- Witness for C5 at a concrete authenticated request whose resolver reports
the file missing. -/
theorem c5_local_not_found_witness :
    postImages envLocalNotFound sampleReq =
      ({ status := HTTP_STATUS.BAD_REQUEST, body := Body.str IMAGE_FILE_NOT_FOUND },
       [ServiceCall.handleLocalFileCall (some "https://example.com/a.png") "token"]) :=
  c5_local_not_found envLocalNotFound sampleReq "token" rfl (by decide) rfl rfl rfl

/-- Counterexample to claim C6: the catch block distinguishes the not-found
case by error message alone, not by which step threw, so a createImage failure
carrying the file-not-found message is mapped to 400 with the file-not-found
body rather than to the generic 500 response the claim requires for every
delegate failure. -/
theorem c6_counterexample_create_not_found_maps_to_400 :
    envCreateNotFound.createImage sampleBody false "token" =
      Except.error { message := IMAGE_FILE_NOT_FOUND } ∧
    (postImages envCreateNotFound sampleReq).2 =
      [ServiceCall.createImageCall sampleBody false "token"] ∧
    (postImages envCreateNotFound sampleReq).1 =
      { status := HTTP_STATUS.BAD_REQUEST, body := Body.str IMAGE_FILE_NOT_FOUND } := by
  exact ⟨rfl, rfl, rfl⟩

/-- Claim C6 as amended: every failure raised during resolution or delegated
creation is mapped by the catch block according to its error message alone: a
message differing from the fixed file-not-found text yields 500 with the
body image processing failed, and a message equal to that text, whether
raised by the resolver or by createImage, yields 400 with the body image
file not found. -/
theorem c6_amended_catch_by_message (env : Env) (req : PostRequest)
    (a : String) (e : JsError)
    (hauth : req.authorization = some a) (hne : a ≠ "")
    (hval : env.isValidImage req.body.imgUrl = true)
    (hfail :
      (env.isLocalFile req.body.imgUrl = true ∧
        env.handleLocalFile req.body.imgUrl a = Except.error e) ∨
      (env.isLocalFile req.body.imgUrl = true ∧
        ∃ u, env.handleLocalFile req.body.imgUrl a = Except.ok u ∧
          env.createImage { req.body with imgUrl := some u } true a = Except.error e) ∨
      (env.isLocalFile req.body.imgUrl = false ∧
        env.createImage req.body false a = Except.error e)) :
    (postImages env req).1 = catchBlock e ∧
    (e.message ≠ IMAGE_FILE_NOT_FOUND →
      (postImages env req).1 =
        { status := HTTP_STATUS.INTERNAL_SERVER_ERROR,
          body := Body.str IMAGE_PROCESSING_FAILED }) ∧
    (e.message = IMAGE_FILE_NOT_FOUND →
      (postImages env req).1 =
        { status := HTTP_STATUS.BAD_REQUEST,
          body := Body.str IMAGE_FILE_NOT_FOUND }) := by
  have hcb : (postImages env req).1 = catchBlock e := by
    rcases hfail with ⟨hloc, hres⟩ | ⟨hloc, u, hres, hc⟩ | ⟨hloc, hc⟩
    · simp [postImages, hauth, hne, hval, hloc, hres]
    · simp [postImages, hauth, hne, hval, hloc, hres, hc]
    · simp [postImages, hauth, hne, hval, hloc, hc]
  refine ⟨hcb, fun hm => ?_, fun hm => ?_⟩
  · rw [hcb]; simp [catchBlock, hm]
  · rw [hcb]; simp [catchBlock, hm]

/-- Witness for the amended C6 at a concrete delegate failure with an
undistinguished message. -/
theorem c6_amended_catch_by_message_witness :
    (postImages envCreateBoom sampleReq).1 =
      { status := HTTP_STATUS.INTERNAL_SERVER_ERROR,
        body := Body.str IMAGE_PROCESSING_FAILED } :=
  (c6_amended_catch_by_message envCreateBoom sampleReq "token" { message := "boom" }
    rfl (by decide) rfl (Or.inr (Or.inr ⟨rfl, rfl⟩))).2.1 (by decide)

/-- Counterexample to claim C7: an objects parameter that is the empty string
is falsy in JavaScript, so the handler skips the filter branch and returns
every record, although the comma-split of the empty string is the single empty
label and the sample record contains no such label, so the claim requires the
record to be omitted. -/
theorem c7_counterexample_empty_string_not_filtered :
    getImages [sampleRecord] (QueryValue.str "") =
      { status := HTTP_STATUS.OKAY, body := Body.records [sampleRecord] } ∧
    ¬ ∃ l, l ∈ jsSplit "" ',' ∧ l ∈ sampleRecord.objects := by
  exact ⟨rfl, by decide⟩

/-- Claim C7 as amended: for a nonempty objects parameter string the response
is 200 with exactly the stored records whose objects set contains at least one
of the comma-separated labels; with the parameter absent, or equal to the
empty string, the response is 200 with every stored record. -/
theorem c7_amended_list_filter (db : List ImageRecord) (s : String) (hs : s ≠ "") :
    (getImages db (QueryValue.str s) =
      { status := HTTP_STATUS.OKAY,
        body := Body.records (ImageMetadata.findByObjectsIn db (jsSplit s ',')) } ∧
     ∀ r, r ∈ ImageMetadata.findByObjectsIn db (jsSplit s ',') ↔
       (r ∈ db ∧ ∃ l, l ∈ jsSplit s ',' ∧ l ∈ r.objects)) ∧
    getImages db QueryValue.absent =
      { status := HTTP_STATUS.OKAY, body := Body.records db } ∧
    getImages db (QueryValue.str "") =
      { status := HTTP_STATUS.OKAY, body := Body.records db } := by
  refine ⟨⟨by simp [getImages, hs], fun r => ?_⟩, rfl, rfl⟩
  constructor
  · intro hr
    rw [ImageMetadata.findByObjectsIn, List.mem_filter] at hr
    obtain ⟨hdb, hp⟩ := hr
    rw [List.any_eq_true] at hp
    obtain ⟨o, ho, hco⟩ := hp
    exact ⟨hdb, o, by simpa using hco, ho⟩
  · rintro ⟨hdb, l, hl, hlo⟩
    rw [ImageMetadata.findByObjectsIn, List.mem_filter]
    exact ⟨hdb, List.any_eq_true.mpr ⟨l, hlo, by simpa using hl⟩⟩

/-- Witness for the amended C7 at a concrete store and the parameter value
cat,dog. -/
theorem c7_amended_list_filter_witness :
    getImages [sampleRecord] (QueryValue.str "cat,dog") =
      { status := HTTP_STATUS.OKAY,
        body := Body.records
          (ImageMetadata.findByObjectsIn [sampleRecord] (jsSplit "cat,dog" ',')) } :=
  (c7_amended_list_filter [sampleRecord] "cat,dog" (by decide)).1.1

/-- Claim C8: fetching by a well-formed identifier returns 400 with the
image-not-found message object when no stored record carries the identifier,
and 200 with exactly the stored record when one does (identifiers are unique
on the store, spec section 3). -/
theorem c8_fetch_by_id (db : List ImageRecord) (id : String) :
    ((∀ r, r ∈ db → r.id ≠ id) →
      getImageById db id =
        { status := HTTP_STATUS.BAD_REQUEST, body := Body.msgObj IMAGE_NOT_FOUND }) ∧
    (∀ r, r ∈ db → r.id = id →
      (∀ r2, r2 ∈ db → r2.id = id → r2 = r) →
      getImageById db id = { status := HTTP_STATUS.OKAY, body := Body.record r }) := by
  constructor
  · intro h
    have hnone : ImageMetadata.findById db id = none := by
      rw [ImageMetadata.findById, List.find?_eq_none]
      intro x hx
      simpa using h x hx
    simp [getImageById, hnone]
  · intro r hr hid huniq
    have hsome : (db.find? (fun r2 => r2.id = id)).isSome := by
      rw [List.find?_isSome]
      exact ⟨r, hr, by simpa using hid⟩
    obtain ⟨r2, hr2⟩ := Option.isSome_iff_exists.mp hsome
    have hmem : r2 ∈ db := List.mem_of_find?_eq_some hr2
    have hp : r2.id = id := by simpa using List.find?_some hr2
    have heq : r2 = r := huniq r2 hmem hp
    have hfind : ImageMetadata.findById db id = some r := by
      rw [ImageMetadata.findById, hr2, heq]
    simp [getImageById, hfind]

/-- Witness for C8 at a one-record store and its own identifier. -/
theorem c8_fetch_by_id_witness :
    getImageById [sampleRecord] "1" =
      { status := HTTP_STATUS.OKAY, body := Body.record sampleRecord } :=
  (c8_fetch_by_id [sampleRecord] "1").2 sampleRecord (by simp) rfl
    (fun r2 h _ => by simpa using h)

/-- Claim C9: when the objects query parameter is not a single string value,
for example an array from a repeated parameter, the filter is skipped and the
response carries every stored record, exactly as when the parameter is
absent. -/
theorem c9_array_objects_skips_filter (db : List ImageRecord) (ss : List String) :
    getImages db (QueryValue.arr ss) = getImages db QueryValue.absent ∧
    getImages db (QueryValue.arr ss) =
      { status := HTTP_STATUS.OKAY, body := Body.records db } :=
  ⟨rfl, rfl⟩
